import Mathlib

/-!
Verification of the document-processing pipeline (NestJS + RabbitMQ + TypeORM).

Shallow embedding of:
  - the Document entity (src/modules/documents/entities/document.entity.ts),
  - the zod OCR result schema (src/modules/documents/validation-schemas/ocr-result.schema.ts),
  - DocumentsService (findOne, update, remove, uploadFile, simulateOCR,
    emitValidationEvent),
  - DocumentsProcessingController (handleProcessing, handleValidation).

Modelling conventions:
  - The PostgreSQL table is a list of Document rows; repository.findOne with a
    where-id clause is first-match lookup; repository.save upserts by primary key.
  - Thrown exceptions are an Except value: NotFoundException is DbErr.notFound,
    a transient store outage (connection failure etc.) is DbErr.infra.  Fault
    injection flags on each store call decide whether that call raises an
    infrastructure error, modelling the "store unreachable" cases of the spec.
  - Timestamps are naturals; TypeORM sets updatedAt on every save.
  - Float confidence values are rationals; the zod schema performs no
    arithmetic on them, only a type (presence) check.
  - Each RabbitMQ handler run returns the resulting store, the list of events
    published during the run, whether the message was acknowledged
    (acked = false means channel.nack(msg, false, true), i.e. requeue), and a
    trace of the completed store writes / publishes / final channel call, in
    program order, for the temporal claims.
-/

/-- DocumentStatus enum (src enums.ts). -/
inductive DocumentStatus where
  | uploaded
  | processing
  | validated
  | failed
deriving DecidableEq, Repr

/-- DocumentEventType enum (src enums.ts). -/
inductive DocumentEventType where
  | document_processing
  | document_validation
deriving DecidableEq, Repr

/-- An event published on the RabbitMQ queue: pattern plus payload documentId. -/
structure DocEvent where
  type : DocumentEventType
  documentId : String
deriving DecidableEq, Repr

/-- Document entity (document.entity.ts): id, filename, path, status, the three
nullable OCR columns, nullable validation_errors, and the two timestamps. -/
structure Document where
  id : String
  filename : String
  path : String
  status : DocumentStatus
  ocr_text : Option String
  ocr_confidence : Option ℚ
  ocr_language : Option String
  validation_errors : Option String
  createdAt : Nat
  updatedAt : Nat
deriving DecidableEq, Repr

/-- OCRResult type inferred from the zod schema: text, confidence, language. -/
structure OCRResult where
  text : String
  confidence : ℚ
  language : String
deriving DecidableEq, Repr

/-- The value handed to OCRResultSchema.safeParse by handleValidation: the three
OCR columns of a document row, each possibly null. -/
structure OCRInput where
  text : Option String
  confidence : Option ℚ
  language : Option String
deriving DecidableEq, Repr

/-- Result of zod safeParse: success with the parsed value, or failure carrying
the list of issue messages. -/
inductive ParseResult where
  | success (result : OCRResult)
  | failure (issues : List String)
deriving DecidableEq, Repr

/-- Whether a safeParse result is a success. -/
def ParseResult.isSuccess : ParseResult → Bool
  | .success _ => true
  | .failure _ => false

/-- The issue messages of a safeParse result ([] on success). -/
def ParseResult.issues : ParseResult → List String
  | .success _ => []
  | .failure msgs => msgs

/-- The zod issues produced by OCRResultSchema on a value whose fields are each
either of the declared primitive type or null.  z.string() / z.number() carry no
refinement (no nonempty check, no range check), so the only possible issue per
field is an invalid_type issue for a null value; zod reports the object keys in
schema order (text, confidence, language). -/
def zodIssues (i : OCRInput) : List String :=
  (match i.text with
    | none => ["Expected string, received null"]
    | some _ => []) ++
  (match i.confidence with
    | none => ["Expected number, received null"]
    | some _ => []) ++
  (match i.language with
    | none => ["Expected string, received null"]
    | some _ => [])

/-- OCRResultSchema.safeParse (ocr-result.schema.ts):
z.object(\x7b text: z.string(), confidence: z.number(), language: z.string() \x7d).
Succeeds exactly when all three fields are present (non-null); otherwise fails
with one issue per null field. -/
def OCRResultSchema.safeParse (i : OCRInput) : ParseResult :=
  match i.text, i.confidence, i.language with
  | some t, some c, some l => .success ⟨t, c, l⟩
  | _, _, _ => .failure (zodIssues i)

/-- Store / queue errors surfaced as exceptions in the service:
NotFoundException from findOne, or a transient infrastructure error. -/
inductive DbErr where
  | notFound
  | infra
deriving DecidableEq, Repr

/-- repository.findOne (first row whose id matches). -/
def lookup : List Document → String → Option Document
  | [], _ => none
  | d :: rest, docId => if d.id = docId then some d else lookup rest docId

/-- repository.save: update the (first) row with the same primary key, or
insert the entity as a new row when no row has its id. -/
def save : List Document → Document → List Document
  | [], d => [d]
  | x :: rest, d => if x.id = d.id then d :: rest else x :: save rest d

/-- UpdateDocumentDto: a partial set of updatable columns (all optional; the
id, createdAt and updatedAt columns are never part of the dto).  A present
inner Option models an explicitly supplied null (e.g. validation_errors: null). -/
structure UpdateDocumentDto where
  filename : Option String := none
  path : Option String := none
  status : Option DocumentStatus := none
  ocr_text : Option (Option String) := none
  ocr_confidence : Option (Option ℚ) := none
  ocr_language : Option (Option String) := none
  validation_errors : Option (Option String) := none
deriving DecidableEq, Repr

/-- Object.assign(document, updateDocumentDto) followed by repository.save:
fields present in the dto overwrite the entity, absent fields are kept, and
TypeORM refreshes updatedAt on save.  id and createdAt are never touched. -/
def applyPartial (d : Document) (dto : UpdateDocumentDto) (now : Nat) : Document :=
  { d with
    filename := dto.filename.getD d.filename
    path := dto.path.getD d.path
    status := dto.status.getD d.status
    ocr_text := dto.ocr_text.getD d.ocr_text
    ocr_confidence := dto.ocr_confidence.getD d.ocr_confidence
    ocr_language := dto.ocr_language.getD d.ocr_language
    validation_errors := dto.validation_errors.getD d.validation_errors
    updatedAt := now }

namespace DocumentsService

/-- DocumentsService.findOne: repository lookup; throws NotFoundException when
no row matches (it never returns a null document).  The fault flag injects a
store infrastructure error for this call. -/
def findOne (fault : Bool) (s : List Document) (docId : String) : Except DbErr Document :=
  if fault then .error .infra
  else
    match lookup s docId with
    | none => .error .notFound
    | some d => .ok d

/-- DocumentsService.update: findOne (propagating NotFoundException /
infrastructure errors), Object.assign with the dto, repository.save. -/
def update (fault : Bool) (s : List Document) (docId : String)
    (dto : UpdateDocumentDto) (now : Nat) : Except DbErr (List Document) :=
  match findOne fault s docId with
  | .error e => .error e
  | .ok d => .ok (save s (applyPartial d dto now))

/-- DocumentsService.remove: findOne then repository.remove of that entity. -/
def remove (fault : Bool) (s : List Document) (docId : String) :
    Except DbErr (List Document) :=
  match findOne fault s docId with
  | .error e => .error e
  | .ok _ => .ok (s.filter (fun x => ¬ x.id = docId))

/-- DocumentsService.simulateOCR: deterministic stub extraction result
(text, confidence 0.98, language en); it never fails. -/
def simulateOCR : OCRResult :=
  { text := "This is a simulated OCR result."
    confidence := 98 / 100
    language := "en" }

/-- The row created by DocumentsService.uploadFile: filename and path from the
upload, status UPLOADED, OCR columns and validation_errors at their null
defaults, fresh timestamps. -/
def newDocument (docId filename path : String) (now : Nat) : Document :=
  { id := docId
    filename := filename
    path := path
    status := .uploaded
    ocr_text := none
    ocr_confidence := none
    ocr_language := none
    validation_errors := none
    createdAt := now
    updatedAt := now }

/-- Store effect of DocumentsService.uploadFile: persist the new UPLOADED row
(the method also emits a document_processing event for the generated id). -/
def uploadDocument (s : List Document) (docId filename path : String) (now : Nat) :
    List Document :=
  save s (newDocument docId filename path now)

end DocumentsService

/-- One completed externally visible action of a handler run, in program order:
a successful findOne, a completed store write, a queue publish, and the final
channel.ack or channel.nack(_, false, true). -/
inductive QAction where
  | findOneOk (docId : String)
  | writeDone (docId : String)
  | publish (e : DocEvent)
  | ackMsg
  | nackMsg
deriving DecidableEq, Repr

/-- Outcome of one handler invocation: resulting store, events published during
the run, whether the message was acknowledged (false means rejected and
requeued), and the trace of completed actions. -/
structure HandlerResult where
  store : List Document
  events : List DocEvent
  acked : Bool
  trace : List QAction
deriving DecidableEq, Repr

namespace DocumentsProcessingController

open DocumentsService

/-- DocumentsProcessingController.handleProcessing, with an interleave point:
every await on the store is a suspension point, so an external out-of-band
store mutation (e.g. a DELETE through the REST controller) may run between the
findOne and the first update; interleave models it (identity when nothing
interleaves).  Control flow of the source:
  - findOne; a thrown NotFoundException or infrastructure error reaches the
    catch block, which nacks with requeue.  The controller then tests
    if (!document) and would ack, but findOne throws instead of returning
    null, so that acknowledge branch is unreachable: the ok branch always
    carries a document (a truthy object).
  - update to status PROCESSING; simulateOCR; update with the three OCR
    columns and status VALIDATED in a single dto; emitValidationEvent;
    channel.ack.  Any thrown error reaches the catch block and nacks. -/
def handleProcessingCore (interleave : List Document → List Document)
    (f1 f2 f3 : Bool) (s : List Document) (documentId : String)
    (now1 now2 : Nat) : HandlerResult :=
  match findOne f1 s documentId with
  | .error _ => ⟨s, [], false, [.nackMsg]⟩
  | .ok _document =>
    let s0 := interleave s
    match update f2 s0 documentId { status := some .processing } now1 with
    | .error _ => ⟨s0, [], false, [.findOneOk documentId, .nackMsg]⟩
    | .ok s1 =>
      let ocrResult := simulateOCR
      match update f3 s1 documentId
          { ocr_text := some (some ocrResult.text)
            ocr_confidence := some (some ocrResult.confidence)
            ocr_language := some (some ocrResult.language)
            status := some .validated } now2 with
      | .error _ =>
          ⟨s1, [], false, [.findOneOk documentId, .writeDone documentId, .nackMsg]⟩
      | .ok s2 =>
          ⟨s2, [⟨.document_validation, documentId⟩], true,
            [.findOneOk documentId, .writeDone documentId, .writeDone documentId,
              .publish ⟨.document_validation, documentId⟩, .ackMsg]⟩

/-- handleProcessing as the queue invokes it: no external mutation interleaves. -/
def handleProcessing (f1 f2 f3 : Bool) (s : List Document) (documentId : String)
    (now1 now2 : Nat) : HandlerResult :=
  handleProcessingCore (fun t => t) f1 f2 f3 s documentId now1 now2

/-- DocumentsProcessingController.handleValidation.  Control flow of the
source: findOne (thrown errors reach the catch block, which nacks; the
if (!document) acknowledge branch is unreachable as in handleProcessing);
OCRResultSchema.safeParse on the three row OCR columns; on failure, update to
status FAILED with the issue messages joined by a comma; on success, update to
status VALIDATED with validation_errors null; channel.ack; any thrown error
nacks with requeue. -/
def handleValidation (f1 f2 : Bool) (s : List Document) (documentId : String)
    (now : Nat) : HandlerResult :=
  match findOne f1 s documentId with
  | .error _ => ⟨s, [], false, [.nackMsg]⟩
  | .ok document =>
    match OCRResultSchema.safeParse
        ⟨document.ocr_text, document.ocr_confidence, document.ocr_language⟩ with
    | .failure issues =>
      match update f2 s documentId
          { status := some .failed
            validation_errors := some (some (String.intercalate "," issues)) } now with
      | .error _ => ⟨s, [], false, [.findOneOk documentId, .nackMsg]⟩
      | .ok s1 => ⟨s1, [], true, [.findOneOk documentId, .writeDone documentId, .ackMsg]⟩
    | .success _ =>
      match update f2 s documentId
          { status := some .validated
            validation_errors := some none } now with
      | .error _ => ⟨s, [], false, [.findOneOk documentId, .nackMsg]⟩
      | .ok s1 => ⟨s1, [], true, [.findOneOk documentId, .writeDone documentId, .ackMsg]⟩

end DocumentsProcessingController

/-! ## The pipeline as a transition system on the store

A step is one of the operations that mutate the document store: an upload
(fresh id, as generated uuids never collide), a run of either queue handler
(the queue is at-least-once and events may be redelivered, duplicated by
external republication, or stale, so a handler may fire for any document id at
any time, with any injected store faults), or the out-of-band deletion the
spec allows. -/

/-- One store-mutating operation of the pipeline. -/
inductive PipelineStep : List Document → List Document → Prop where
  | upload (s : List Document) (docId filename path : String) (now : Nat)
      (hfresh : lookup s docId = none) :
      PipelineStep s (DocumentsService.uploadDocument s docId filename path now)
  | processingStep (s : List Document) (f1 f2 f3 : Bool) (docId : String)
      (now1 now2 : Nat) :
      PipelineStep s
        (DocumentsProcessingController.handleProcessing f1 f2 f3 s docId now1 now2).store
  | validationStep (s : List Document) (f1 f2 : Bool) (docId : String) (now : Nat) :
      PipelineStep s
        (DocumentsProcessingController.handleValidation f1 f2 s docId now).store
  | removeStep (s : List Document) (docId : String) (s' : List Document)
      (h : DocumentsService.remove false s docId = .ok s') :
      PipelineStep s s'

/-- Store states reachable from the empty store by pipeline operations. -/
def Reachable (s : List Document) : Prop :=
  Relation.ReflTransGen PipelineStep [] s

/-! ## Basic store lemmas -/

theorem lookup_id {s : List Document} {docId : String} {d : Document}
    (h : lookup s docId = some d) : d.id = docId := by
  induction s with
  | nil => simp [lookup] at h
  | cons x rest ih =>
    by_cases hx : x.id = docId
    · simp [lookup, hx] at h
      subst h; exact hx
    · simp [lookup, hx] at h
      exact ih h

theorem lookup_save_self {s : List Document} {d : Document} {docId : String}
    (hid : d.id = docId) : lookup (save s d) docId = some d := by
  induction s with
  | nil => simp [save, lookup, hid]
  | cons x rest ih =>
    by_cases hx : x.id = d.id
    · simp [save, hx, lookup, hid]
    · have hx2 : ¬ x.id = docId := by rw [← hid]; exact hx
      simp [save, hx, lookup, hx2, ih]

theorem lookup_save_ne {s : List Document} {d : Document} {docId : String}
    (hne : ¬ d.id = docId) : lookup (save s d) docId = lookup s docId := by
  induction s with
  | nil => simp [save, lookup, hne]
  | cons x rest ih =>
    by_cases hx : x.id = d.id
    · have hx2 : ¬ x.id = docId := by rw [hx]; exact hne
      simp [save, hx, lookup, hx2, hne]
    · simp [save, hx, lookup, ih]

theorem mem_save {s : List Document} {d x : Document} (h : x ∈ save s d) :
    x = d ∨ x ∈ s := by
  induction s with
  | nil => simp [save] at h; exact Or.inl h
  | cons y rest ih =>
    by_cases hy : y.id = d.id
    · simp [save, hy] at h
      rcases h with h | h
      · exact Or.inl h
      · exact Or.inr (List.mem_cons_of_mem _ h)
    · simp [save, hy] at h
      rcases h with h | h
      · exact Or.inr (by simp [h])
      · rcases ih h with h2 | h2
        · exact Or.inl h2
        · exact Or.inr (List.mem_cons_of_mem _ h2)

theorem save_self {s : List Document} {d : Document} {docId : String}
    (h : lookup s docId = some d) : save s d = s := by
  have hid : d.id = docId := lookup_id h
  induction s with
  | nil => simp [lookup] at h
  | cons x rest ih =>
    by_cases hx : x.id = docId
    · simp [lookup, hx] at h
      subst h
      simp [save]
    · simp [lookup, hx] at h
      have hxd : ¬ x.id = d.id := by rw [hid]; exact hx
      simp [save, hxd, ih h]

theorem save_save {s : List Document} {d1 d2 : Document} (hid : d1.id = d2.id) :
    save (save s d1) d2 = save s d2 := by
  induction s with
  | nil => simp [save, hid]
  | cons x rest ih =>
    by_cases hx : x.id = d1.id
    · have hx2 : x.id = d2.id := by rw [hx]; exact hid
      simp [save, hx, hx2, hid]
    · have hx2 : ¬ x.id = d2.id := by rw [← hid]; exact hx
      simp [save, hx, hx2, ih]

theorem mem_save_of_mem_ne {s : List Document} {d x : Document}
    (hx : x ∈ s) (hne : ¬ x.id = d.id) : x ∈ save s d := by
  induction s with
  | nil => simp at hx
  | cons y rest ih =>
    rcases List.mem_cons.mp hx with h | h
    · subst h
      simp [save, hne]
    · by_cases hy : y.id = d.id
      · simp [save, hy]
        right
        exact h
      · simp [save, hy]
        right
        exact ih h

/-! ## applyPartial field lemmas -/

theorem applyPartial_id (d : Document) (dto : UpdateDocumentDto) (now : Nat) :
    (applyPartial d dto now).id = d.id := rfl

theorem applyPartial_createdAt (d : Document) (dto : UpdateDocumentDto) (now : Nat) :
    (applyPartial d dto now).createdAt = d.createdAt := rfl

theorem applyPartial_updatedAt (d : Document) (dto : UpdateDocumentDto) (now : Nat) :
    (applyPartial d dto now).updatedAt = now := rfl

/-! ## DocumentsService.update lemmas -/

theorem update_ok_of_lookup {s : List Document} {docId : String} {d : Document}
    {dto : UpdateDocumentDto} {now : Nat} (h : lookup s docId = some d) :
    DocumentsService.update false s docId dto now =
      .ok (save s (applyPartial d dto now)) := by
  simp [DocumentsService.update, DocumentsService.findOne, h]

theorem update_notFound {s : List Document} {docId : String}
    {dto : UpdateDocumentDto} {now : Nat} (h : lookup s docId = none) :
    DocumentsService.update false s docId dto now = .error .notFound := by
  simp [DocumentsService.update, DocumentsService.findOne, h]

theorem update_ok_elim {f : Bool} {s s' : List Document} {docId : String}
    {dto : UpdateDocumentDto} {now : Nat}
    (h : DocumentsService.update f s docId dto now = .ok s') :
    ∃ d, lookup s docId = some d ∧ s' = save s (applyPartial d dto now) := by
  cases f with
  | true => simp [DocumentsService.update, DocumentsService.findOne] at h
  | false =>
    cases hl : lookup s docId with
    | none => simp [DocumentsService.update, DocumentsService.findOne, hl] at h
    | some d =>
      simp [DocumentsService.update, DocumentsService.findOne, hl] at h
      exact ⟨d, rfl, h.symm⟩

/-! ## safeParse lemmas -/

theorem safeParse_isSuccess_iff (i : OCRInput) :
    (OCRResultSchema.safeParse i).isSuccess = true ↔
      i.text ≠ none ∧ i.confidence ≠ none ∧ i.language ≠ none := by
  obtain ⟨t, c, l⟩ := i
  cases t <;> cases c <;> cases l <;>
    simp [OCRResultSchema.safeParse, ParseResult.isSuccess]

theorem safeParse_failure_issues {i : OCRInput} {msgs : List String}
    (h : OCRResultSchema.safeParse i = .failure msgs) : msgs = zodIssues i := by
  obtain ⟨t, c, l⟩ := i
  cases t <;> cases c <;> cases l <;>
    simp [OCRResultSchema.safeParse, zodIssues] at h ⊢ <;>
    simp [h]

/-! ## Handler run characterizations (fault-free runs) -/

namespace DocumentsProcessingController

open DocumentsService

/-- The dto of the first write of the processing handler. -/
def processingDto : UpdateDocumentDto := { status := some .processing }

/-- The dto of the second write of the processing handler: the three OCR
columns and the provisional VALIDATED status, all in one update. -/
def ocrDto : UpdateDocumentDto :=
  { ocr_text := some (some simulateOCR.text)
    ocr_confidence := some (some simulateOCR.confidence)
    ocr_language := some (some simulateOCR.language)
    status := some .validated }

/-- A fault-free processing run on a missing document: findOne throws
NotFoundException, the catch block nacks, nothing is written or published. -/
theorem handleProcessing_notFound {s : List Document} {docId : String}
    {now1 now2 : Nat} (h : lookup s docId = none) :
    handleProcessing false false false s docId now1 now2 =
      ⟨s, [], false, [.nackMsg]⟩ := by
  simp [handleProcessing, handleProcessingCore, findOne, h]

theorem handleProcessing_success {s : List Document} {docId : String}
    {d : Document} {now1 now2 : Nat} (h : lookup s docId = some d) :
    handleProcessing false false false s docId now1 now2 =
      ⟨save s (applyPartial (applyPartial d processingDto now1) ocrDto now2),
        [⟨.document_validation, docId⟩], true,
        [.findOneOk docId, .writeDone docId, .writeDone docId,
          .publish ⟨.document_validation, docId⟩, .ackMsg]⟩ := by
  have hid : (applyPartial d processingDto now1).id = docId := by
    rw [applyPartial_id]; exact lookup_id h
  have h2 : lookup (save s (applyPartial d processingDto now1)) docId =
      some (applyPartial d processingDto now1) := lookup_save_self hid
  have hfind : findOne false s docId = Except.ok d := by simp [findOne, h]
  have hu1 : DocumentsService.update false s docId
      { status := some DocumentStatus.processing } now1 =
      .ok (save s (applyPartial d
        { status := some DocumentStatus.processing } now1)) :=
    update_ok_of_lookup h
  have hu2 : DocumentsService.update false
      (save s (applyPartial d { status := some DocumentStatus.processing } now1)) docId
      { ocr_text := some (some simulateOCR.text)
        ocr_confidence := some (some simulateOCR.confidence)
        ocr_language := some (some simulateOCR.language)
        status := some DocumentStatus.validated } now2 =
      .ok (save (save s (applyPartial d
            { status := some DocumentStatus.processing } now1))
          (applyPartial (applyPartial d { status := some DocumentStatus.processing } now1)
            { ocr_text := some (some simulateOCR.text)
              ocr_confidence := some (some simulateOCR.confidence)
              ocr_language := some (some simulateOCR.language)
              status := some DocumentStatus.validated } now2)) :=
    update_ok_of_lookup h2
  simp only [handleProcessing, handleProcessingCore, hfind, hu1, hu2,
    processingDto, ocrDto]
  rw [save_save (by rfl)]

/-- A fault-free validation run on a missing document: findOne throws
NotFoundException, the catch block nacks, nothing is written. -/
theorem handleValidation_notFound {s : List Document} {docId : String}
    {now : Nat} (h : lookup s docId = none) :
    handleValidation false false s docId now = ⟨s, [], false, [.nackMsg]⟩ := by
  simp [handleValidation, findOne, h]

/-- The dto written by the validation handler when the schema check passes. -/
def validatedDto : UpdateDocumentDto :=
  { status := some .validated, validation_errors := some none }

/-- The dto written by the validation handler when the schema check fails on
input i: status FAILED and the issue messages joined by commas. -/
def failedDto (i : OCRInput) : UpdateDocumentDto :=
  { status := some .failed
    validation_errors := some (some (String.intercalate "," (zodIssues i))) }

/-- A fault-free validation run on an existing document writes exactly one of
the two terminal dtos, depending on the schema check, and acknowledges. -/
theorem handleValidation_found {s : List Document} {docId : String}
    {d : Document} {now : Nat} (h : lookup s docId = some d) :
    handleValidation false false s docId now =
      ⟨save s (applyPartial d
          (if (OCRResultSchema.safeParse
                ⟨d.ocr_text, d.ocr_confidence, d.ocr_language⟩).isSuccess
            then validatedDto
            else failedDto ⟨d.ocr_text, d.ocr_confidence, d.ocr_language⟩) now),
        [], true, [.findOneOk docId, .writeDone docId, .ackMsg]⟩ := by
  have hfind : findOne false s docId = Except.ok d := by simp [findOne, h]
  simp only [handleValidation, hfind]
  cases hp : OCRResultSchema.safeParse ⟨d.ocr_text, d.ocr_confidence, d.ocr_language⟩ with
  | success r =>
    have hu : DocumentsService.update false s docId
        { status := some DocumentStatus.validated, validation_errors := some none } now =
        .ok (save s (applyPartial d
          { status := some DocumentStatus.validated, validation_errors := some none } now)) :=
      update_ok_of_lookup h
    simp [hu, ParseResult.isSuccess, validatedDto]
  | failure msgs =>
    have hm : msgs = zodIssues ⟨d.ocr_text, d.ocr_confidence, d.ocr_language⟩ :=
      safeParse_failure_issues hp
    subst hm
    have hu : DocumentsService.update false s docId
        { status := some DocumentStatus.failed
          validation_errors := some (some (String.intercalate ","
            (zodIssues ⟨d.ocr_text, d.ocr_confidence, d.ocr_language⟩))) } now =
        .ok (save s (applyPartial d
          { status := some DocumentStatus.failed
            validation_errors := some (some (String.intercalate ","
              (zodIssues ⟨d.ocr_text, d.ocr_confidence, d.ocr_language⟩))) } now)) :=
      update_ok_of_lookup h
    simp [hu, ParseResult.isSuccess, failedDto]

end DocumentsProcessingController

/-! ## Fault-path and store-shape lemmas -/

namespace DocumentsProcessingController

open DocumentsService

/-- Any injected store fault makes the processing handler end in
channel.nack(msg, false, true); if the fault strikes at findOne or at the
first update, no write has happened and the store is untouched. -/
theorem handleProcessing_fault {f1 f2 f3 : Bool} {s : List Document}
    {docId : String} {now1 now2 : Nat} (hf : f1 = true ∨ f2 = true ∨ f3 = true) :
    (handleProcessing f1 f2 f3 s docId now1 now2).acked = false ∧
      (f1 = true ∨ f2 = true → (handleProcessing f1 f2 f3 s docId now1 now2).store = s) := by
  cases f1 with
  | true => simp [handleProcessing, handleProcessingCore, DocumentsService.findOne]
  | false =>
    cases hl : lookup s docId with
    | none =>
      simp [handleProcessing, handleProcessingCore, DocumentsService.findOne, hl]
    | some d =>
      cases f2 with
      | true =>
        simp [handleProcessing, handleProcessingCore, DocumentsService.findOne, hl,
          DocumentsService.update]
      | false =>
        cases f3 with
        | true =>
          constructor
          · simp [handleProcessing, handleProcessingCore, DocumentsService.findOne, hl,
              DocumentsService.update]
          · intro hcontra
            rcases hcontra with hc | hc <;> cases hc
        | false =>
          rcases hf with hc | hc | hc <;> cases hc

/-- A fault at the second update of the processing handler leaves the record
in the PROCESSING state written by the first update. -/
theorem handleProcessing_fault3 {s : List Document} {docId : String}
    {d : Document} {now1 now2 : Nat} (h : lookup s docId = some d) :
    (handleProcessing false false true s docId now1 now2).store =
      save s (applyPartial d processingDto now1) ∧
    (handleProcessing false false true s docId now1 now2).acked = false := by
  have hu1 : DocumentsService.update false s docId
      { status := some DocumentStatus.processing } now1 =
      .ok (save s (applyPartial d
        { status := some DocumentStatus.processing } now1)) :=
    update_ok_of_lookup h
  constructor <;>
    simp [handleProcessing, handleProcessingCore, DocumentsService.findOne, h, hu1,
      DocumentsService.update, processingDto]

/-- Any injected store fault makes the validation handler end in
channel.nack(msg, false, true) with the store untouched (its only write is the
one terminal update, which did not complete). -/
theorem handleValidation_fault {g1 g2 : Bool} {s : List Document}
    {docId : String} {now : Nat} (hf : g1 = true ∨ g2 = true) :
    (handleValidation g1 g2 s docId now).acked = false ∧
      (handleValidation g1 g2 s docId now).store = s := by
  cases g1 with
  | true => simp [handleValidation, DocumentsService.findOne]
  | false =>
    cases hl : lookup s docId with
    | none => simp [handleValidation, DocumentsService.findOne, hl]
    | some d =>
      cases g2 with
      | true =>
        cases hp : OCRResultSchema.safeParse
            ⟨d.ocr_text, d.ocr_confidence, d.ocr_language⟩ with
        | success r =>
          simp [handleValidation, DocumentsService.findOne, hl, hp,
            DocumentsService.update]
        | failure msgs =>
          simp [handleValidation, DocumentsService.findOne, hl, hp,
            DocumentsService.update]
      | false => rcases hf with hc | hc <;> cases hc

/-- Every store a processing run can leave behind: untouched, after the
PROCESSING write only, or after both writes. -/
theorem handleProcessing_store_cases (f1 f2 f3 : Bool) (s : List Document)
    (docId : String) (now1 now2 : Nat) :
    (handleProcessing f1 f2 f3 s docId now1 now2).store = s ∨
    (∃ d, lookup s docId = some d ∧
      (handleProcessing f1 f2 f3 s docId now1 now2).store =
        save s (applyPartial d processingDto now1)) ∨
    (∃ d, lookup s docId = some d ∧
      (handleProcessing f1 f2 f3 s docId now1 now2).store =
        save s (applyPartial (applyPartial d processingDto now1) ocrDto now2)) := by
  cases f1 with
  | true =>
    left; simp [handleProcessing, handleProcessingCore, DocumentsService.findOne]
  | false =>
    cases hl : lookup s docId with
    | none =>
      left
      simp [handleProcessing, handleProcessingCore, DocumentsService.findOne, hl]
    | some d =>
      cases f2 with
      | true =>
        left
        simp [handleProcessing, handleProcessingCore, DocumentsService.findOne, hl,
          DocumentsService.update]
      | false =>
        cases f3 with
        | true =>
          right; left
          exact ⟨d, rfl, (handleProcessing_fault3 hl).1⟩
        | false =>
          right; right
          exact ⟨d, rfl, by rw [handleProcessing_success hl]⟩

/-- Every store a validation run can leave behind: untouched, after the
VALIDATED write, or after the FAILED write. -/
theorem handleValidation_store_cases (f1 f2 : Bool) (s : List Document)
    (docId : String) (now : Nat) :
    (handleValidation f1 f2 s docId now).store = s ∨
    (∃ d, lookup s docId = some d ∧
      (handleValidation f1 f2 s docId now).store =
        save s (applyPartial d validatedDto now)) ∨
    (∃ d, lookup s docId = some d ∧
      (handleValidation f1 f2 s docId now).store =
        save s (applyPartial d
          (failedDto ⟨d.ocr_text, d.ocr_confidence, d.ocr_language⟩) now)) := by
  cases hfv : f1 with
  | true => left; exact (handleValidation_fault (Or.inl rfl)).2
  | false =>
    cases hl : lookup s docId with
    | none =>
      left
      simp [handleValidation, DocumentsService.findOne, hl]
    | some d =>
      cases hgv : f2 with
      | true => left; exact (handleValidation_fault (Or.inr rfl)).2
      | false =>
        cases hp : OCRResultSchema.safeParse
            ⟨d.ocr_text, d.ocr_confidence, d.ocr_language⟩ with
        | success r =>
          right; left
          refine ⟨d, rfl, ?_⟩
          rw [handleValidation_found hl]
          simp [hp, ParseResult.isSuccess]
        | failure msgs =>
          right; right
          refine ⟨d, rfl, ?_⟩
          rw [handleValidation_found hl]
          simp [hp, ParseResult.isSuccess]

end DocumentsProcessingController

/-! ## The validation-errors invariant -/

theorem remove_ok_elim {f : Bool} {s s' : List Document} {docId : String}
    (h : DocumentsService.remove f s docId = .ok s') :
    s' = s.filter (fun x => ¬ x.id = docId) := by
  cases f with
  | true => simp [DocumentsService.remove, DocumentsService.findOne] at h
  | false =>
    cases hl : lookup s docId with
    | none => simp [DocumentsService.remove, DocumentsService.findOne, hl] at h
    | some d =>
      simp [DocumentsService.remove, DocumentsService.findOne, hl] at h
      simpa [decide_not] using h.symm

theorem applyPartial_status_some {d : Document} {dto : UpdateDocumentDto}
    {st : DocumentStatus} {now : Nat} (h : dto.status = some st) :
    (applyPartial d dto now).status = st := by
  simp [applyPartial, h]

/-- A record whose status is FAILED carries a non-null validation_errors.
This is the direction of the spec invariant that the code maintains. -/
def ErrorsInvariant (s : List Document) : Prop :=
  ∀ d ∈ s, d.status = DocumentStatus.failed → d.validation_errors ≠ none

theorem errorsInvariant_save {s : List Document} {d : Document}
    (hs : ErrorsInvariant s)
    (hd : d.status = DocumentStatus.failed → d.validation_errors ≠ none) :
    ErrorsInvariant (save s d) := by
  intro x hx
  rcases mem_save hx with h | h
  · subst h; exact hd
  · exact hs x h

theorem errorsInvariant_step {s s' : List Document} (hstep : PipelineStep s s')
    (hs : ErrorsInvariant s) : ErrorsInvariant s' := by
  cases hstep with
  | upload docId filename path now hfresh =>
    refine errorsInvariant_save hs ?_
    intro hst
    simp [DocumentsService.newDocument] at hst
  | processingStep f1 f2 f3 docId now1 now2 =>
    rcases DocumentsProcessingController.handleProcessing_store_cases
        f1 f2 f3 s docId now1 now2 with h | ⟨d, _, h⟩ | ⟨d, _, h⟩
    · rw [h]; exact hs
    · rw [h]
      refine errorsInvariant_save hs ?_
      intro hst
      rw [applyPartial_status_some rfl] at hst
      simp at hst
    · rw [h]
      refine errorsInvariant_save hs ?_
      intro hst
      rw [applyPartial_status_some rfl] at hst
      simp at hst
  | validationStep f1 f2 docId now =>
    rcases DocumentsProcessingController.handleValidation_store_cases
        f1 f2 s docId now with h | ⟨d, _, h⟩ | ⟨d, _, h⟩
    · rw [h]; exact hs
    · rw [h]
      refine errorsInvariant_save hs ?_
      intro hst
      rw [applyPartial_status_some rfl] at hst
      simp at hst
    · rw [h]
      refine errorsInvariant_save hs ?_
      intro _
      simp [applyPartial, DocumentsProcessingController.failedDto]
  | removeStep docId s2 hrem =>
    rw [remove_ok_elim hrem]
    intro x hx
    exact hs x (List.mem_of_mem_filter hx)

theorem errorsInvariant_reachable {s : List Document} (h : Reachable s) :
    ErrorsInvariant s := by
  induction h with
  | refl => intro d hd; simp at hd
  | tail hst step ih => exact errorsInvariant_step step ih

/-! ## Race helper: out-of-band deletion between lookup and update -/

theorem lookup_filter_self (s : List Document) (docId : String) :
    lookup (s.filter (fun x => ¬ x.id = docId)) docId = none := by
  induction s with
  | nil => rfl
  | cons x rest ih =>
    rw [List.filter_cons]
    by_cases hx : x.id = docId
    · rw [if_neg (by simp [hx])]
      exact ih
    · rw [if_pos (by simp [hx])]
      simp only [lookup]
      rw [if_neg hx]
      exact ih

/-- If the document row is deleted out-of-band after the findOne of the
processing handler and before its first update, the nested findOne inside
update throws NotFoundException, the catch block nacks, and nothing is
written or published by the handler. -/
theorem handleProcessing_race_deleted {t : List Document} {docId : String}
    {d : Document} {now1 now2 : Nat} (hfound : lookup t docId = some d) :
    DocumentsProcessingController.handleProcessingCore
        (fun u => u.filter (fun x => ¬ x.id = docId)) false false false t docId now1 now2 =
      ⟨t.filter (fun x => ¬ x.id = docId), [], false,
        [.findOneOk docId, .nackMsg]⟩ := by
  have hfind : DocumentsService.findOne false t docId = Except.ok d := by
    simp [DocumentsService.findOne, hfound]
  have hnone : lookup (t.filter (fun x => ¬ x.id = docId)) docId = none :=
    lookup_filter_self t docId
  simp only [DocumentsProcessingController.handleProcessingCore, hfind]
  simp only [DocumentsService.update, DocumentsService.findOne]
  simp [decide_not] at hnone ⊢
  simp [hnone]

/-- A concrete freshly uploaded row used to instantiate the claims. -/
def demoDoc : Document := DocumentsService.newDocument "doc-1" "a.pdf" "u.pdf" 0

/-! ## The claims -/

open DocumentsProcessingController DocumentsService

/-- Claim C1, counterexample.  The claim states that a processing (or
validation) event for an id with no record ends in acknowledgment.  On the
empty store the fault-free run of either handler ends with acked = false,
i.e. channel.nack(msg, false, true): findOne throws NotFoundException, which
the catch block converts to reject-and-requeue, so the claim is false. -/
theorem C1_counterexample :
    (handleProcessing false false false [] "doc-1" 0 1).acked = false ∧
    (handleValidation false false [] "doc-1" 2).acked = false :=
  ⟨rfl, rfl⟩

/-- Claim C1, amended.  For every processing or validation event whose
documentId has no record, the fault-free handler run performs no store writes
and publishes nothing, but the message is rejected-and-requeued, not
acknowledged: DocumentsService.findOne throws NotFoundException instead of
returning null, so the controller not-found acknowledge branch is dead code
and the catch-all nack handles the case. -/
theorem C1_amended (s : List Document) (docId : String) (now1 now2 now3 : Nat)
    (h : lookup s docId = none) :
    handleProcessing false false false s docId now1 now2 =
      ⟨s, [], false, [.nackMsg]⟩ ∧
    handleValidation false false s docId now3 = ⟨s, [], false, [.nackMsg]⟩ :=
  ⟨handleProcessing_notFound h, handleValidation_notFound h⟩

/-- Witness for C1_amended at the empty store and id doc-1. -/
theorem C1_amended_witness :
    handleProcessing false false false [] "doc-1" 0 1 =
      ⟨[], [], false, [.nackMsg]⟩ ∧
    handleValidation false false [] "doc-1" 2 = ⟨[], [], false, [.nackMsg]⟩ :=
  C1_amended [] "doc-1" 0 1 2 rfl

/-- Claim C2, counterexample.  The claim states the validator fails on empty
text, on confidence greater than 1, and on empty language.  The zod schema
only type-checks the three fields, so the input with empty text, confidence 2
and empty language parses successfully, refuting the claim. -/
theorem C2_counterexample :
    OCRResultSchema.safeParse ⟨some "", some 2, some ""⟩ =
      ParseResult.success ⟨"", 2, ""⟩ :=
  rfl

/-- Claim C2, amended.  The Result Validator (OCRResultSchema.safeParse)
fails exactly when a field is null, with one error entry per null field; it
passes every input whose three fields are all non-null, in particular every
input with non-empty text, confidence in the unit interval and non-empty
language, but also empty strings and out-of-range confidence values. -/
theorem C2_amended (i : OCRInput) :
    ((OCRResultSchema.safeParse i).isSuccess = true ↔
      i.text ≠ none ∧ i.confidence ≠ none ∧ i.language ≠ none) ∧
    (OCRResultSchema.safeParse i).issues.length =
      ((if i.text = none then 1 else 0) +
        (if i.confidence = none then 1 else 0) +
        (if i.language = none then 1 else 0)) := by
  obtain ⟨t, c, l⟩ := i
  refine ⟨safeParse_isSuccess_iff ⟨t, c, l⟩, ?_⟩
  cases t <;> cases c <;> cases l <;>
    simp [OCRResultSchema.safeParse, zodIssues, ParseResult.issues]

/-- Claim C5, counterexample.  The claim states that on a store
infrastructure error the record status is unchanged.  With an UPLOADED record
and an infrastructure error injected at the second update of the processing
handler, the message is indeed requeued but the record is left in PROCESSING,
written by the first update before the fault. -/
theorem C5_counterexample :
    (lookup [demoDoc] "doc-1").map Document.status = some DocumentStatus.uploaded ∧
    (handleProcessing false false true [demoDoc] "doc-1" 1 2).acked = false ∧
    (lookup (handleProcessing false false true [demoDoc] "doc-1" 1 2).store "doc-1").map
        Document.status = some DocumentStatus.processing :=
  ⟨rfl, rfl, rfl⟩

/-- Claim C5, amended.  When the store raises an infrastructure error during
either handler the message is always rejected-and-requeued (never
acknowledged); the record status is unchanged whenever the error strikes
before any write completed (always the case in the validation handler, and in
the processing handler for faults at findOne or the first update), but a
fault at the second update of the processing handler leaves the record in the
PROCESSING status written by the first update. -/
theorem C5_amended (f1 f2 f3 g1 g2 : Bool) (s t : List Document)
    (docId docId2 : String) (now1 now2 now3 : Nat)
    (hp : f1 = true ∨ f2 = true ∨ f3 = true) (hv : g1 = true ∨ g2 = true) :
    ((handleProcessing f1 f2 f3 s docId now1 now2).acked = false ∧
      (f1 = true ∨ f2 = true → (handleProcessing f1 f2 f3 s docId now1 now2).store = s) ∧
      (∀ d, f1 = false → f2 = false → f3 = true → lookup s docId = some d →
        (lookup (handleProcessing f1 f2 f3 s docId now1 now2).store docId).map
          Document.status = some DocumentStatus.processing)) ∧
    ((handleValidation g1 g2 t docId2 now3).acked = false ∧
      (handleValidation g1 g2 t docId2 now3).store = t) := by
  refine ⟨⟨(handleProcessing_fault hp).1, (handleProcessing_fault hp).2, ?_⟩,
    handleValidation_fault hv⟩
  intro d h1 h2 h3 hl
  subst h1; subst h2; subst h3
  rw [(handleProcessing_fault3 hl).1]
  rw [lookup_save_self (by rw [applyPartial_id]; exact lookup_id hl)]
  simp [applyPartial, processingDto]

/-- Witness for C5_amended: infrastructure error at findOne in both handlers
on the empty store. -/
theorem C5_amended_witness :
    ((handleProcessing true false false [] "doc-1" 0 1).acked = false ∧
      (true = true ∨ false = true →
        (handleProcessing true false false [] "doc-1" 0 1).store = []) ∧
      (∀ d, true = false → false = false → false = true → lookup [] "doc-1" = some d →
        (lookup (handleProcessing true false false [] "doc-1" 0 1).store "doc-1").map
          Document.status = some DocumentStatus.processing)) ∧
    ((handleValidation true false [] "doc-2" 2).acked = false ∧
      (handleValidation true false [] "doc-2" 2).store = []) :=
  C5_amended true false false true false [] [] "doc-1" "doc-2" 0 1 2
    (Or.inl rfl) (Or.inl rfl)

/-- Claim C3.  A fault-free processing run on an existing UPLOADED record
acknowledges the message, publishes exactly one validation event carrying the
same documentId, and leaves the record with the three OCR columns all
non-null and status VALIDATED, written together by the single second update
(the trace shows exactly two writes, then the publish, then the ack). -/
theorem C3_processing_success (s : List Document) (docId : String) (d : Document)
    (now1 now2 : Nat) (hfound : lookup s docId = some d)
    (hstatus : d.status = DocumentStatus.uploaded) :
    (handleProcessing false false false s docId now1 now2).acked = true ∧
    (handleProcessing false false false s docId now1 now2).events =
      [⟨DocumentEventType.document_validation, docId⟩] ∧
    (handleProcessing false false false s docId now1 now2).trace =
      [.findOneOk docId, .writeDone docId, .writeDone docId,
        .publish ⟨DocumentEventType.document_validation, docId⟩, .ackMsg] ∧
    ∃ d2, lookup (handleProcessing false false false s docId now1 now2).store docId =
        some d2 ∧
      d2.ocr_text = some simulateOCR.text ∧
      d2.ocr_confidence = some simulateOCR.confidence ∧
      d2.ocr_language = some simulateOCR.language ∧
      d2.status = DocumentStatus.validated := by
  rw [handleProcessing_success hfound]
  exact ⟨rfl, rfl, rfl,
    applyPartial (applyPartial d processingDto now1) ocrDto now2,
    lookup_save_self (by rw [applyPartial_id, applyPartial_id]; exact lookup_id hfound),
    rfl, rfl, rfl, rfl⟩

/-- Witness for C3 on a store holding one UPLOADED record. -/
theorem C3_witness :
    (handleProcessing false false false [demoDoc] "doc-1" 1 2).acked = true ∧
    (handleProcessing false false false [demoDoc] "doc-1" 1 2).events =
      [⟨DocumentEventType.document_validation, "doc-1"⟩] ∧
    (handleProcessing false false false [demoDoc] "doc-1" 1 2).trace =
      [.findOneOk "doc-1", .writeDone "doc-1", .writeDone "doc-1",
        .publish ⟨DocumentEventType.document_validation, "doc-1"⟩, .ackMsg] ∧
    ∃ d2, lookup (handleProcessing false false false [demoDoc] "doc-1" 1 2).store "doc-1" =
        some d2 ∧
      d2.ocr_text = some simulateOCR.text ∧
      d2.ocr_confidence = some simulateOCR.confidence ∧
      d2.ocr_language = some simulateOCR.language ∧
      d2.status = DocumentStatus.validated :=
  C3_processing_success [demoDoc] "doc-1" demoDoc 1 2 rfl rfl

/-- Claim C4.  A fault-free validation run on an existing record always
acknowledges the message (validation failure included), and persists either
status VALIDATED with validation_errors null when the schema check passes, or
status FAILED with validation_errors equal to all issue messages joined into
one comma-separated string when it fails. -/
theorem C4_validation_outcomes (s : List Document) (docId : String) (d : Document)
    (now : Nat) (hfound : lookup s docId = some d) :
    (handleValidation false false s docId now).acked = true ∧
    ∃ d2, lookup (handleValidation false false s docId now).store docId = some d2 ∧
      (if (OCRResultSchema.safeParse
            ⟨d.ocr_text, d.ocr_confidence, d.ocr_language⟩).isSuccess
        then d2.status = DocumentStatus.validated ∧ d2.validation_errors = none
        else d2.status = DocumentStatus.failed ∧
          d2.validation_errors = some (String.intercalate ","
            (zodIssues ⟨d.ocr_text, d.ocr_confidence, d.ocr_language⟩))) := by
  by_cases hp : (OCRResultSchema.safeParse
      ⟨d.ocr_text, d.ocr_confidence, d.ocr_language⟩).isSuccess = true
  · rw [handleValidation_found hfound, if_pos hp]
    exact ⟨rfl, applyPartial d validatedDto now,
      lookup_save_self (by rw [applyPartial_id]; exact lookup_id hfound),
      by rw [if_pos hp]; exact ⟨rfl, rfl⟩⟩
  · rw [handleValidation_found hfound, if_neg hp]
    exact ⟨rfl,
      applyPartial d (failedDto ⟨d.ocr_text, d.ocr_confidence, d.ocr_language⟩) now,
      lookup_save_self (by rw [applyPartial_id]; exact lookup_id hfound),
      by rw [if_neg hp]; exact ⟨rfl, rfl⟩⟩

/-- Witness for C4 on a record whose OCR columns are all null: the schema
check fails and the FAILED outcome is persisted, still with an ack. -/
theorem C4_witness :
    (handleValidation false false [demoDoc] "doc-1" 3).acked = true ∧
    ∃ d2, lookup (handleValidation false false [demoDoc] "doc-1" 3).store "doc-1" =
        some d2 ∧
      (if (OCRResultSchema.safeParse
            ⟨demoDoc.ocr_text, demoDoc.ocr_confidence, demoDoc.ocr_language⟩).isSuccess
        then d2.status = DocumentStatus.validated ∧ d2.validation_errors = none
        else d2.status = DocumentStatus.failed ∧
          d2.validation_errors = some (String.intercalate ","
            (zodIssues ⟨demoDoc.ocr_text, demoDoc.ocr_confidence, demoDoc.ocr_language⟩))) :=
  C4_validation_outcomes [demoDoc] "doc-1" demoDoc 3 rfl

/-- Claim C7.  Redelivering the same processing event after a first fully
successful fault-free attempt is idempotent on the record: the extraction
stub is deterministic, so the second run rewrites the same values and every
stored column except the updatedAt timestamp is unchanged (with equal write
timestamps the whole store is literally unchanged), the run acknowledges, and
exactly one more validation event for the same id is published. -/
theorem C7_idempotent (s : List Document) (docId : String) (d : Document)
    (now1 now2 now3 now4 : Nat) (hfound : lookup s docId = some d) :
    (handleProcessing false false false s docId now1 now2).acked = true ∧
    (handleProcessing false false false
        (handleProcessing false false false s docId now1 now2).store
        docId now3 now4).acked = true ∧
    (handleProcessing false false false
        (handleProcessing false false false s docId now1 now2).store
        docId now3 now4).events = [⟨DocumentEventType.document_validation, docId⟩] ∧
    (∃ d1 d2,
      lookup (handleProcessing false false false s docId now1 now2).store docId =
        some d1 ∧
      lookup (handleProcessing false false false
          (handleProcessing false false false s docId now1 now2).store
          docId now3 now4).store docId = some d2 ∧
      d2.id = d1.id ∧ d2.filename = d1.filename ∧ d2.path = d1.path ∧
      d2.status = d1.status ∧ d2.ocr_text = d1.ocr_text ∧
      d2.ocr_confidence = d1.ocr_confidence ∧ d2.ocr_language = d1.ocr_language ∧
      d2.validation_errors = d1.validation_errors ∧ d2.createdAt = d1.createdAt) ∧
    (now3 = now1 → now4 = now2 →
      (handleProcessing false false false
          (handleProcessing false false false s docId now1 now2).store
          docId now3 now4).store =
        (handleProcessing false false false s docId now1 now2).store) := by
  have hid : d.id = docId := lookup_id hfound
  rw [handleProcessing_success hfound]
  have hf2 : lookup (save s (applyPartial (applyPartial d processingDto now1) ocrDto now2))
      docId = some (applyPartial (applyPartial d processingDto now1) ocrDto now2) :=
    lookup_save_self (by rw [applyPartial_id, applyPartial_id]; exact hid)
  rw [handleProcessing_success hf2]
  refine ⟨rfl, rfl, rfl,
    ⟨applyPartial (applyPartial d processingDto now1) ocrDto now2,
      applyPartial (applyPartial (applyPartial (applyPartial d processingDto now1)
        ocrDto now2) processingDto now3) ocrDto now4,
      hf2,
      lookup_save_self (by simp only [applyPartial_id]; exact hid),
      rfl, rfl, rfl, rfl, rfl, rfl, rfl, rfl, rfl⟩, ?_⟩
  intro h3 h4
  subst h3; subst h4
  rw [save_save (by rfl)]
  rfl

/-- Witness for C7: redelivery of the processing event for doc-1 after a
first successful run. -/
theorem C7_witness :
    (handleProcessing false false false [demoDoc] "doc-1" 1 2).acked = true ∧
    (handleProcessing false false false
        (handleProcessing false false false [demoDoc] "doc-1" 1 2).store
        "doc-1" 3 4).acked = true ∧
    (handleProcessing false false false
        (handleProcessing false false false [demoDoc] "doc-1" 1 2).store
        "doc-1" 3 4).events = [⟨DocumentEventType.document_validation, "doc-1"⟩] ∧
    (∃ d1 d2,
      lookup (handleProcessing false false false [demoDoc] "doc-1" 1 2).store "doc-1" =
        some d1 ∧
      lookup (handleProcessing false false false
          (handleProcessing false false false [demoDoc] "doc-1" 1 2).store
          "doc-1" 3 4).store "doc-1" = some d2 ∧
      d2.id = d1.id ∧ d2.filename = d1.filename ∧ d2.path = d1.path ∧
      d2.status = d1.status ∧ d2.ocr_text = d1.ocr_text ∧
      d2.ocr_confidence = d1.ocr_confidence ∧ d2.ocr_language = d1.ocr_language ∧
      d2.validation_errors = d1.validation_errors ∧ d2.createdAt = d1.createdAt) ∧
    ((3 : Nat) = 1 → (4 : Nat) = 2 →
      (handleProcessing false false false
          (handleProcessing false false false [demoDoc] "doc-1" 1 2).store
          "doc-1" 3 4).store =
        (handleProcessing false false false [demoDoc] "doc-1" 1 2).store) :=
  C7_idempotent [demoDoc] "doc-1" demoDoc 1 2 3 4 rfl

/-- Claim C8.  In every processing run (any injected faults), whenever the
message is acknowledged, or whenever any event is published, the trace of the
run is exactly findOne, the PROCESSING write, the final VALIDATED write, the
publish of the validation event, then the ack: the list is in program order,
so the acknowledgment happens only after both the final write and the
publish, and the validation event is published only after the final write is
persisted. -/
theorem C8_ack_ordering (f1 f2 f3 : Bool) (s : List Document) (docId : String)
    (now1 now2 : Nat)
    (h : QAction.ackMsg ∈ (handleProcessing f1 f2 f3 s docId now1 now2).trace ∨
      ∃ e, QAction.publish e ∈ (handleProcessing f1 f2 f3 s docId now1 now2).trace) :
    (handleProcessing f1 f2 f3 s docId now1 now2).trace =
      [.findOneOk docId, .writeDone docId, .writeDone docId,
        .publish ⟨DocumentEventType.document_validation, docId⟩, .ackMsg] := by
  cases f1 with
  | true =>
    simp [handleProcessing, handleProcessingCore, DocumentsService.findOne] at h
  | false =>
    cases hl : lookup s docId with
    | none =>
      simp [handleProcessing, handleProcessingCore, DocumentsService.findOne, hl] at h
    | some d =>
      cases f2 with
      | true =>
        simp [handleProcessing, handleProcessingCore, DocumentsService.findOne, hl,
          DocumentsService.update] at h
      | false =>
        cases f3 with
        | true =>
          have hu1 : DocumentsService.update false s docId
              { status := some DocumentStatus.processing } now1 =
              .ok (save s (applyPartial d
                { status := some DocumentStatus.processing } now1)) :=
            update_ok_of_lookup hl
          simp [handleProcessing, handleProcessingCore, DocumentsService.findOne, hl,
            hu1, DocumentsService.update] at h
        | false =>
          rw [handleProcessing_success hl]

/-- Witness for C8: a successful run on one UPLOADED record, whose ack is in
the trace. -/
theorem C8_witness :
    (handleProcessing false false false [demoDoc] "doc-1" 1 2).trace =
      [.findOneOk "doc-1", .writeDone "doc-1", .writeDone "doc-1",
        .publish ⟨DocumentEventType.document_validation, "doc-1"⟩, .ackMsg] :=
  C8_ack_ordering false false false [demoDoc] "doc-1" 1 2 (Or.inl (by decide))

/-- Claim C9.  For every id with no record, DocumentsService.update throws
NotFoundException (the nested findOne throws before any write: no row is
written and none is created, as the error carries no store).  Consequently,
when a document is deleted out-of-band between the processing handler
findOne and its first update, that update throws and the handler
rejects-and-requeues instead of acknowledging, having written and published
nothing. -/
theorem C9_update_missing (s t : List Document) (docId : String)
    (dto : UpdateDocumentDto) (now now1 now2 : Nat) (d : Document)
    (habsent : lookup s docId = none) (hfound : lookup t docId = some d) :
    DocumentsService.update false s docId dto now = .error .notFound ∧
    (∀ s', DocumentsService.update false s docId dto now ≠ .ok s') ∧
    handleProcessingCore (fun u => u.filter (fun x => ¬ x.id = docId))
        false false false t docId now1 now2 =
      ⟨t.filter (fun x => ¬ x.id = docId), [], false,
        [.findOneOk docId, .nackMsg]⟩ := by
  refine ⟨update_notFound habsent, ?_, handleProcessing_race_deleted hfound⟩
  intro s' hcontra
  rw [update_notFound habsent] at hcontra
  exact Except.noConfusion hcontra

/-- Witness for C9: the empty store for the missing-id update, and a
one-record store for the mid-flight deletion race. -/
theorem C9_witness :
    DocumentsService.update false [] "doc-1" processingDto 0 = .error .notFound ∧
    (∀ s', DocumentsService.update false [] "doc-1" processingDto 0 ≠ .ok s') ∧
    handleProcessingCore (fun u => u.filter (fun x => ¬ x.id = "doc-1"))
        false false false [demoDoc] "doc-1" 1 2 =
      ⟨[demoDoc].filter (fun x => ¬ x.id = "doc-1"), [], false,
        [.findOneOk "doc-1", .nackMsg]⟩ :=
  C9_update_missing [] [demoDoc] "doc-1" processingDto 0 1 2 demoDoc rfl rfl

/-- Claim C10.  On an existing record, DocumentsService.update succeeds and
rewrites exactly the row with that id to the Object.assign merge: every
column absent from the dto keeps its previous value, id and createdAt are
never touched, updatedAt is refreshed by the save, and every other row of
the store is untouched. -/
theorem C10_update_frame (s : List Document) (docId : String) (d : Document)
    (dto : UpdateDocumentDto) (now : Nat) (hfound : lookup s docId = some d) :
    DocumentsService.update false s docId dto now =
      .ok (save s (applyPartial d dto now)) ∧
    lookup (save s (applyPartial d dto now)) docId = some (applyPartial d dto now) ∧
    (applyPartial d dto now).id = d.id ∧
    (applyPartial d dto now).createdAt = d.createdAt ∧
    (applyPartial d dto now).updatedAt = now ∧
    (dto.filename = none → (applyPartial d dto now).filename = d.filename) ∧
    (dto.path = none → (applyPartial d dto now).path = d.path) ∧
    (dto.status = none → (applyPartial d dto now).status = d.status) ∧
    (dto.ocr_text = none → (applyPartial d dto now).ocr_text = d.ocr_text) ∧
    (dto.ocr_confidence = none →
      (applyPartial d dto now).ocr_confidence = d.ocr_confidence) ∧
    (dto.ocr_language = none →
      (applyPartial d dto now).ocr_language = d.ocr_language) ∧
    (dto.validation_errors = none →
      (applyPartial d dto now).validation_errors = d.validation_errors) ∧
    (∀ x ∈ s, ¬ x.id = docId → x ∈ save s (applyPartial d dto now)) := by
  refine ⟨update_ok_of_lookup hfound,
    lookup_save_self (by rw [applyPartial_id]; exact lookup_id hfound),
    rfl, rfl, rfl, ?_, ?_, ?_, ?_, ?_, ?_, ?_, ?_⟩
  · intro h; simp [applyPartial, h]
  · intro h; simp [applyPartial, h]
  · intro h; simp [applyPartial, h]
  · intro h; simp [applyPartial, h]
  · intro h; simp [applyPartial, h]
  · intro h; simp [applyPartial, h]
  · intro h; simp [applyPartial, h]
  · intro x hx hne
    refine mem_save_of_mem_ne hx ?_
    rw [applyPartial_id, lookup_id hfound]
    exact hne

/-- Witness for C10: updating the status column only, on a one-record store. -/
theorem C10_witness :
    DocumentsService.update false [demoDoc] "doc-1" processingDto 5 =
      .ok (save [demoDoc] (applyPartial demoDoc processingDto 5)) ∧
    lookup (save [demoDoc] (applyPartial demoDoc processingDto 5)) "doc-1" =
      some (applyPartial demoDoc processingDto 5) ∧
    (applyPartial demoDoc processingDto 5).id = demoDoc.id ∧
    (applyPartial demoDoc processingDto 5).createdAt = demoDoc.createdAt ∧
    (applyPartial demoDoc processingDto 5).updatedAt = 5 ∧
    (processingDto.filename = none →
      (applyPartial demoDoc processingDto 5).filename = demoDoc.filename) ∧
    (processingDto.path = none →
      (applyPartial demoDoc processingDto 5).path = demoDoc.path) ∧
    (processingDto.status = none →
      (applyPartial demoDoc processingDto 5).status = demoDoc.status) ∧
    (processingDto.ocr_text = none →
      (applyPartial demoDoc processingDto 5).ocr_text = demoDoc.ocr_text) ∧
    (processingDto.ocr_confidence = none →
      (applyPartial demoDoc processingDto 5).ocr_confidence = demoDoc.ocr_confidence) ∧
    (processingDto.ocr_language = none →
      (applyPartial demoDoc processingDto 5).ocr_language = demoDoc.ocr_language) ∧
    (processingDto.validation_errors = none →
      (applyPartial demoDoc processingDto 5).validation_errors =
        demoDoc.validation_errors) ∧
    (∀ x ∈ [demoDoc], ¬ x.id = "doc-1" →
      x ∈ save [demoDoc] (applyPartial demoDoc processingDto 5)) :=
  C10_update_frame [demoDoc] "doc-1" demoDoc processingDto 5 rfl

/-! ## Claim C6: the validation-errors / FAILED invariant -/

/-- One freshly uploaded record. -/
def c6Store0 : List Document := uploadDocument [] "doc-1" "a.pdf" "u.pdf" 0

/-- After a validation event is handled for the uploaded record: its OCR
columns are still null, so the schema check fails and the record is persisted
as FAILED with non-null validation_errors. -/
def c6Store1 : List Document := (handleValidation false false c6Store0 "doc-1" 1).store

/-- After a processing event is then handled for the FAILED record (the spec
itself allows an operator to retry a FAILED document by republishing a fresh
processing event, and the at-least-once queue may redeliver or duplicate
events): the final update writes status VALIDATED without touching
validation_errors. -/
def c6Store2 : List Document := (handleProcessing false false false c6Store1 "doc-1" 2 3).store

theorem reachable_c6Store1 : Reachable c6Store1 :=
  Relation.ReflTransGen.tail
    (Relation.ReflTransGen.tail Relation.ReflTransGen.refl
      (PipelineStep.upload [] "doc-1" "a.pdf" "u.pdf" 0 rfl))
    (PipelineStep.validationStep c6Store0 false false "doc-1" 1)

theorem reachable_c6Store2 : Reachable c6Store2 :=
  Relation.ReflTransGen.tail reachable_c6Store1
    (PipelineStep.processingStep c6Store1 false false false "doc-1" 2 3)

/-- Claim C6, counterexample.  The claim states that in every reachable store
state validation_errors is non-null iff the status is FAILED, and that every
transition to VALIDATED clears validation_errors.  The reachable state
c6Store2 holds a record with status VALIDATED and non-null validation_errors:
the second update of the processing handler sets status VALIDATED but its dto
does not contain validation_errors, so the stale FAILED-era error string
survives the transition. -/
theorem C6_counterexample :
    Reachable c6Store2 ∧
    (lookup c6Store2 "doc-1").map (fun d => (d.status, d.validation_errors.isSome)) =
      some (DocumentStatus.validated, true) :=
  ⟨reachable_c6Store2, by decide⟩

/-- Claim C6, amended.  In every reachable store state, a FAILED record has
non-null validation_errors (the only write of FAILED also writes the joined
error string).  The converse direction of the claimed iff does not hold: the
validation handler clears validation_errors on its VALIDATED write, but the
processing handler VALIDATED write leaves validation_errors unchanged, so
reprocessing a FAILED record yields VALIDATED with a stale non-null error
string. -/
theorem C6_invariant_amended (s : List Document) (hreach : Reachable s) :
    ∀ d ∈ s, d.status = DocumentStatus.failed → d.validation_errors ≠ none :=
  errorsInvariant_reachable hreach

/-- The FAILED record of the reachable state c6Store1. -/
def c6FailedDoc : Document :=
  (lookup c6Store1 "doc-1").getD (newDocument "" "" "" 0)

/-- Witness for C6_invariant_amended at the reachable state c6Store1 and its
FAILED record. -/
theorem C6_invariant_witness : c6FailedDoc.validation_errors ≠ none :=
  C6_invariant_amended c6Store1 reachable_c6Store1 c6FailedDoc (by decide) (by decide)
